import Mathlib

/-!
# Verification of the `terminator` crate

Shallow embedding of `src/lib.rs` of the `terminator` repository.

The crate defines a single struct `Terminator { err: String }`, a generic
conversion `impl<T: Into<Box<dyn Error>>> From<T> for Terminator` whose body is
`Self { err: err.into().to_string() }`, and a manual `Debug` implementation
whose body is `write!(f, "{}", self.err)`.

Modelling choices:

* A value `v` of some type `T : Into<Box<dyn Error>>` is modelled by
  `ErrValue`: its human-readable (`Display`) rendering `display`, its default
  diagnostic (`Debug`) rendering `debugRepr`, and the boxed type-erased error
  `intoBox` that `v.into()` produces.  `ToString::to_string` on the box reads
  its `Display` text, so `err.into().to_string()` is `v.intoBox.display`.
  For every conversion the standard library provides for this bound
  (the blanket impl for `E : Error`, and the impls for `String` / `&str`)
  the boxed error's `Display` text equals the original value's `Display`
  text; theorems that need this state it as the explicit hypothesis
  `v.intoBox.display = v.display`.
* The formatting sink handed to `Debug::fmt` is modelled by `Formatter`:
  the text written so far plus a flag saying whether the underlying sink
  fails on the next write (a `fmt::Formatter` write returns
  `Result<(), fmt::Error>`, failing exactly when the sink fails).
-/

/-- Model of a boxed type-erased error, `Box<dyn Error>`: all the conversion
uses of it is its `Display` rendering, read off by `to_string()`. -/
structure BoxError where
  display : String
deriving DecidableEq

/-- Model of an input value `v : T` with `T : Into<Box<dyn Error>>`: its
human-readable (`Display`) text, its default diagnostic (`Debug`) text, and
the boxed error `v.into()` yields. -/
structure ErrValue where
  display : String
  debugRepr : String
  intoBox : BoxError
deriving DecidableEq

/-- `pub struct Terminator { err: String }` from `src/lib.rs`. -/
structure Terminator where
  err : String
deriving DecidableEq

/-- `impl<T: Into<Box<dyn Error>>> From<T> for Terminator`:
`fn from(err: T) -> Self { Self { err: err.into().to_string() } }`.
(`from` is a Lean keyword, hence the name `fromValue`.) -/
def Terminator.fromValue (v : ErrValue) : Terminator :=
  { err := v.intoBox.display }

/-- The single failure value of `std::fmt::Error`. -/
inductive FmtError
  | fmtError
deriving DecidableEq

/-- Model of `&mut fmt::Formatter`: accumulated output and whether the
underlying sink fails writes. -/
structure Formatter where
  out : String
  broken : Bool
deriving DecidableEq

/-- A single write to the formatter (`write!(f, "{}", s)`): appends the text,
failing exactly when the underlying sink fails. -/
def Formatter.writeStr (f : Formatter) (s : String) : Except FmtError Formatter :=
  if f.broken then Except.error FmtError.fmtError
  else Except.ok { f with out := f.out ++ s }

/-- `impl Debug for Terminator`:
`fn fmt(&self, f: &mut fmt::Formatter) -> Result<(), fmt::Error> { write!(f, "{}", self.err) }`. -/
def Terminator.fmt (self : Terminator) (f : Formatter) : Except FmtError Formatter :=
  f.writeStr self.err

/-- The text produced by `Debug`-formatting a `Terminator` into a fresh,
working sink (what `format!("{:?}", t)` yields). -/
def debugRender (t : Terminator) : String :=
  match t.fmt { out := "", broken := false } with
  | Except.ok f => f.out
  | Except.error _ => ""

/-- `String`'s conversion `From<String> for Box<dyn Error>`: the boxed error
displays the string itself, so a bare string is an accepted input.  The
default `Debug` rendering of a `String` is its quoted form. -/
def ErrValue.ofString (s : String) : ErrValue :=
  { display := s
    debugRepr := "\x22" ++ s ++ "\x22"
    intoBox := { display := s } }

/-- One level of `?`-propagation over `n` intermediate call frames: each frame
forwards a failure unchanged (`Err(e) => return Err(e)`) and maps a success on
through. -/
def propagateChain (n : Nat) (r : Except ErrValue Unit) : Except ErrValue Unit :=
  match n with
  | 0 => r
  | Nat.succ m => (propagateChain m r).bind (fun a => Except.ok a)

/-- The entry point's final `?`: converts the propagated failure into
`Terminator` via `From`, exactly as `fn main() -> Result<(), Terminator>`
does. -/
def runMain (n : Nat) (deep : Except ErrValue Unit) : Except Terminator Unit :=
  match propagateChain n deep with
  | Except.ok a => Except.ok a
  | Except.error e => Except.error (Terminator.fromValue e)

/-- World state for the effect-tracking embedding of `From::from`: the
observable I/O channels.  The conversion body
`Self { err: err.into().to_string() }` contains no I/O primitive, so its
embedding threads the world through untouched. -/
structure World where
  stdoutText : String
  stderrText : String
deriving DecidableEq

/-- `From::from` in the effect-tracking embedding: every step of the body
(`into`, `to_string`, struct construction) is pure, so the world component is
returned as received. -/
def fromValueWithWorld (v : ErrValue) (w : World) : Terminator × World :=
  (Terminator.fromValue v, w)

/-- Outcome of a whole process run: what reached standard error, and the exit
status. -/
structure ProcessOutcome where
  stderrText : String
  exitCode : Nat
deriving DecidableEq

/-- Modelled from the spec: the platform's failure-reporting path (the host
runtime behind `fn main() -> Result<(), E>`, external to this repository)
"writes whatever text the diagnostic-rendering operation produces to the
standard error stream, then exits the process with a non-zero status code";
the spec's example scenario fixes the status at 1. -/
def reportFailure (t : Terminator) : ProcessOutcome :=
  { stderrText := debugRender t, exitCode := 1 }

/-- Modelled from the spec: a full program run under the entry-point failure
contract — success exits with status 0 and writes nothing, failure is handed
to the platform's failure-reporting path. -/
def runProgram (r : Except Terminator Unit) : ProcessOutcome :=
  match r with
  | Except.ok _ => { stderrText := "", exitCode := 0 }
  | Except.error t => reportFailure t

/-- The missing-file failure of `examples/terminator.rs`: `fs::read_to_string`
on a nonexistent path yields an `io::Error` whose `Display` text is
"No such file or directory (os error 2)" and whose default `Debug` text is a
structural dump. -/
def missingFileError : ErrValue :=
  { display := "No such file or directory (os error 2)"
    debugRepr := "Os(2, NotFound, No such file or directory)"
    intoBox := { display := "No such file or directory (os error 2)" } }

/-- `examples/terminator.rs`: `fn main() -> Result<(), Terminator>` whose body
`fs::read_to_string("path/does/not/exist")?` fails with `missingFileError`,
converted by `?` through `From`. -/
def exampleMain : Except Terminator Unit :=
  Except.error (Terminator.fromValue missingFileError)

/-- A custom failure value from the spec's example scenario: `Display` text
"oh no: hi" (built from the textual cause "hi"), with a structural `Debug`
form that differs from it. -/
def ohNoError : ErrValue :=
  { display := "oh no: hi"
    debugRepr := "MyError(hi)"
    intoBox := { display := "oh no: hi" } }

/-! ## Theorems for the claims -/

/-- C1: for every input value `v` accepted by the conversion (its standard
boxing preserving its `Display` text `t`), building a `Terminator` from `v`
and `Debug`-rendering it yields exactly `t`, whatever `v`'s own `Debug`
rendering `d` is. -/
theorem C1_round_trip (v : ErrValue) (h : v.intoBox.display = v.display) :
    debugRender (Terminator.fromValue v) = v.display ∧
    ∀ d : String,
      debugRender (Terminator.fromValue { v with debugRepr := d }) = v.display := by
  constructor
  · simp [debugRender, Terminator.fmt, Formatter.writeStr, Terminator.fromValue, h]
  · intro d
    simp [debugRender, Terminator.fmt, Formatter.writeStr, Terminator.fromValue, h]

/-- C1 witness: the round-trip property at the concrete value `ohNoError`,
whose `Debug` form "MyError(hi)" differs from its `Display` form
"oh no: hi". -/
theorem C1_round_trip_witness :
    debugRender (Terminator.fromValue ohNoError) = "oh no: hi" ∧
    debugRender (Terminator.fromValue { ohNoError with debugRepr := "Weird(0)" }) = "oh no: hi" := by
  have h := C1_round_trip ohNoError rfl
  exact ⟨h.1, h.2 "Weird(0)"⟩

/-- C2: the `Debug` rendering of any `Terminator` is exactly its stored `err`
string, with no decoration added. -/
theorem C2_debug_verbatim (t : Terminator) : debugRender t = t.err := by
  simp [debugRender, Terminator.fmt, Formatter.writeStr]

/-- C3: the wrapper produced by `From` stores exactly the `Display` text of
the input (its standard boxing preserving that text); in particular a value
displaying "oh no: hi" is captured as exactly "oh no: hi". -/
theorem C3_construction_captures_display (v : ErrValue)
    (h : v.intoBox.display = v.display) :
    (Terminator.fromValue v).err = v.display := by
  simp [Terminator.fromValue, h]

/-- C3 witness: the custom failure with `Display` text "oh no: hi" is captured
as exactly "oh no: hi". -/
theorem C3_construction_captures_display_witness :
    (Terminator.fromValue ohNoError).err = "oh no: hi" :=
  C3_construction_captures_display ohNoError rfl

/-- C4: a `Terminator` is immutable after construction and `Debug`-rendering
is deterministic: invoking `fmt` repeatedly on the same instance (over any
working sink) writes the identical text, namely `t.err`, each time. -/
theorem C4_immutable_deterministic (t : Terminator) (f : Formatter)
    (h : f.broken = false) :
    ∃ f1 f2 : Formatter,
      t.fmt f = Except.ok f1 ∧ t.fmt f1 = Except.ok f2 ∧
      f1.out = f.out ++ t.err ∧ f2.out = f1.out ++ t.err ∧
      debugRender t = debugRender t := by
  refine ⟨{ f with out := f.out ++ t.err },
          { f with out := f.out ++ t.err ++ t.err }, ?_, ?_, rfl, rfl, rfl⟩
  · simp [Terminator.fmt, Formatter.writeStr, h]
  · simp [Terminator.fmt, Formatter.writeStr, h]

/-- C4 witness: the determinism theorem applied at a concrete wrapper and a
fresh working formatter. -/
theorem C4_immutable_deterministic_witness :
    ∃ f1 f2 : Formatter,
      (Terminator.mk "boom").fmt { out := "", broken := false } = Except.ok f1 ∧
      (Terminator.mk "boom").fmt f1 = Except.ok f2 ∧
      f1.out = "" ++ "boom" ∧ f2.out = f1.out ++ "boom" ∧
      debugRender (Terminator.mk "boom") = debugRender (Terminator.mk "boom") :=
  C4_immutable_deterministic (Terminator.mk "boom") { out := "", broken := false } rfl

/-- C5: the conversion is total over the accepted category — every `ErrValue`
is accepted and `From` produces exactly one wrapper, with no runtime failure
path (its result type is `Terminator`, not an error-carrying type). -/
theorem C5_conversion_total (v : ErrValue) :
    ∃! t : Terminator, Terminator.fromValue v = t :=
  ⟨Terminator.fromValue v, rfl, fun _ h => h.symm⟩

/-- C5 witness: totality at a concrete input. -/
theorem C5_conversion_total_witness :
    ∃! t : Terminator, Terminator.fromValue missingFileError = t :=
  C5_conversion_total missingFileError

/-- C6: a failure raised `n` frames deep and propagated by `?` with no manual
handling reaches the entry point intact, and the final conversion to
`Terminator` carries the original `Display` text unchanged. -/
theorem C6_propagation_compatible (n : Nat) (v : ErrValue)
    (h : v.intoBox.display = v.display) :
    runMain n (Except.error v) = Except.error (Terminator.mk v.display) := by
  have hchain : propagateChain n (Except.error v) = Except.error v := by
    induction n with
    | zero => rfl
    | succ m ih => simp [propagateChain, ih, Except.bind]
  simp [runMain, hchain, Terminator.fromValue, h]

/-- C6 witness: a failure three frames deep still yields its original message
text. -/
theorem C6_propagation_compatible_witness :
    runMain 3 (Except.error missingFileError) =
      Except.error (Terminator.mk "No such file or directory (os error 2)") :=
  C6_propagation_compatible 3 missingFileError rfl

/-- C7: `Debug`-rendering a `Terminator` fails exactly when the underlying
sink fails, the sink's failure is returned to the caller unhandled, and a
working sink never fails — there is no other failure mode. -/
theorem C7_fmt_fails_iff_sink_fails (t : Terminator) (f : Formatter) :
    ((t.fmt f).isOk ↔ f.broken = false) ∧
    (f.broken = true → t.fmt f = Except.error FmtError.fmtError) ∧
    (f.broken = false → t.fmt f = Except.ok { f with out := f.out ++ t.err }) := by
  refine ⟨?_, ?_, ?_⟩ <;>
    cases hb : f.broken <;>
      simp [Terminator.fmt, Formatter.writeStr, hb, Except.isOk, Except.toBool]

/-- C7 witness: the failure characterization evaluated at a concrete wrapper
over a broken and over a working sink. -/
theorem C7_fmt_fails_iff_sink_fails_witness :
    (Terminator.mk "x").fmt { out := "", broken := true } =
        Except.error FmtError.fmtError ∧
    (Terminator.mk "x").fmt { out := "", broken := false } =
        Except.ok { out := "" ++ "x", broken := false } :=
  ⟨(C7_fmt_fails_iff_sink_fails (Terminator.mk "x") { out := "", broken := true }).2.1 rfl,
   (C7_fmt_fails_iff_sink_fails (Terminator.mk "x") { out := "", broken := false }).2.2 rfl⟩

/-- C8: in the effect-tracking embedding, the conversion leaves the world (all
I/O channels) untouched and only produces the wrapper value: it performs no
I/O and mutates no external state. -/
theorem C8_conversion_pure (v : ErrValue) (w : World) :
    (fromValueWithWorld v w).2 = w ∧
    (fromValueWithWorld v w).1 = Terminator.fromValue v :=
  ⟨rfl, rfl⟩

/-- C9: running the example entry point on the missing-file failure writes
exactly "No such file or directory (os error 2)" — no braces, no labels — to
standard error and exits with status 1. -/
theorem C9_end_to_end_scenario :
    runProgram exampleMain =
      { stderrText := "No such file or directory (os error 2)", exitCode := 1 } := by
  rfl

/-- C10: a bare string is an accepted conversion input (via `String`'s boxing
into a type-erased error), the stored message is the string verbatim, and so
is the `Debug` rendering. -/
theorem C10_string_input (s : String) :
    (Terminator.fromValue (ErrValue.ofString s)).err = s ∧
    debugRender (Terminator.fromValue (ErrValue.ofString s)) = s := by
  constructor
  · rfl
  · simp [debugRender, Terminator.fmt, Formatter.writeStr, Terminator.fromValue,
      ErrValue.ofString]
